import Mathlib

/-!
Verification of the connection-and-dispatch engine of the fleet-telemetry
streaming server (`src/server/streaming/server.go`).

The Go code is shallowly embedded: pure functions become Lean functions,
byte strings become `List Nat`, Go's two-value `(value, error)` returns
become pairs of `Option`s (a Go `nil` error is `none`), and a Go runtime
panic is the `panic_` constructor of `GoOutcome`.  Components of the
repository that are not part of `server.go` (the socket registry, the
socket manager's read loop, `messages.CreateIdentityFromCert`,
`telemetry.NewRecord`) are modelled from the specification; each such
definition says so in its doc comment.
-/

/-- Model of a Go `error` value.  A Go `error` interface value is either
`nil` (modelled as `none` at use sites) or a concrete non-nil value
(modelled by this type): `errorsNew` for `errors.New(msg)` /
`fmt.Errorf(msg)` without a wrap verb, `fmtErrorf` for
`fmt.Errorf(msg ++ ": %w", wrapped)` where the wrapped error may itself be
Go-`nil` (`none`): `fmt.Errorf` always returns a non-nil error even then. -/
inductive GoError where
  | errorsNew (msg : String)
  | fmtErrorf (msg : String) (wrapped : Option GoError)
deriving Repr

/-- Structural equality for `GoError` is decidable. -/
def GoError.deq : (a b : GoError) → Decidable (a = b)
  | .errorsNew m1, .errorsNew m2 =>
    match String.decEq m1 m2 with
    | isTrue h => isTrue (by rw [h])
    | isFalse h => isFalse (fun he => by cases he; exact h rfl)
  | .errorsNew _, .fmtErrorf _ _ => isFalse (fun he => by cases he)
  | .fmtErrorf _ _, .errorsNew _ => isFalse (fun he => by cases he)
  | .fmtErrorf m1 w1, .fmtErrorf m2 w2 =>
    match String.decEq m1 m2 with
    | isFalse h => isFalse (fun he => by cases he; exact h rfl)
    | isTrue h =>
      match w1, w2 with
      | none, none => isTrue (by rw [h])
      | none, some _ => isFalse (fun he => by cases he)
      | some _, none => isFalse (fun he => by cases he)
      | some e1, some e2 =>
        match GoError.deq e1 e2 with
        | isTrue h2 => isTrue (by rw [h, h2])
        | isFalse h2 => isFalse (fun he => by cases he; exact h2 rfl)

instance : DecidableEq GoError := GoError.deq

/-- Structural equality for `Except` values is decidable when it is for
both components. -/
def exceptDeq {ε α : Type} [DecidableEq ε] [DecidableEq α] :
    (a b : Except ε α) → Decidable (a = b)
  | .ok a, .ok b =>
    match decEq a b with
    | isTrue h => isTrue (by rw [h])
    | isFalse h => isFalse (fun he => by cases he; exact h rfl)
  | .ok _, .error _ => isFalse (fun he => by cases he)
  | .error _, .ok _ => isFalse (fun he => by cases he)
  | .error e1, .error e2 =>
    match decEq e1 e2 with
    | isTrue h => isTrue (by rw [h])
    | isFalse h => isFalse (fun he => by cases he; exact h rfl)

instance {ε α : Type} [DecidableEq ε] [DecidableEq α] : DecidableEq (Except ε α) :=
  exceptDeq

/-- Outcome of running a Go function: a normal return carrying the results,
or a runtime panic that unwinds without returning. -/
inductive GoOutcome (α : Type) where
  | ok (val : α)
  | panic_ (msg : String)
deriving DecidableEq, Repr

/-- The part of an `x509.Certificate` the engine observes: the issuer and
subject common names. -/
structure Cert where
  issuerCN : String
  subjectCN : String
deriving DecidableEq, Repr

/-- Model of `telemetry.RequestIdentity` from the repository. -/
structure RequestIdentity where
  deviceID : String
  senderID : String
deriving DecidableEq, Repr

/-- Go `[]byte(s)` conversion; for the ASCII identifiers the engine uses,
each byte is the character's code point. -/
def strBytes (s : String) : List Nat :=
  s.data.map Char.toNat

/-- Go `http.Header.Get`: an absent header reads as the empty string. -/
def headerGet (h : Option String) : String :=
  h.getD ""

/-- Association-list lookup, modelling a Go map read that distinguishes
presence (`some`) from absence (`none`). -/
def lookupAssoc {α : Type} : List (String × α) → String → Option α
  | [], _ => none
  | (k, v) :: rest, key => if k = key then some v else lookupAssoc rest key

/-- Value of one base64 alphabet character (Go `encoding/base64`
standard alphabet), `none` for a character outside the alphabet. -/
def b64Val (c : Char) : Option Nat :=
  if 'A' ≤ c ∧ c ≤ 'Z' then some (c.toNat - 65)
  else if 'a' ≤ c ∧ c ≤ 'z' then some (c.toNat - 97 + 26)
  else if '0' ≤ c ∧ c ≤ '9' then some (c.toNat - 48 + 52)
  else if c = '+' then some 62
  else if c = '/' then some 63
  else none

/-- Decode base64 input four characters at a time, with `=` padding allowed
only at the end of the final quantum, as Go's
`base64.StdEncoding.DecodeString` does. -/
def b64DecodeChars : List Char → Except GoError (List Nat)
  | [] => .ok []
  | a :: b :: c :: d :: rest =>
    match b64Val a, b64Val b with
    | some va, some vb =>
      if c = '=' ∧ d = '=' ∧ rest = [] then
        .ok [va * 4 + vb / 16]
      else if d = '=' ∧ rest = [] then
        match b64Val c with
        | some vc => .ok [va * 4 + vb / 16, (vb % 16) * 16 + vc / 4]
        | none => .error (.errorsNew "illegal base64 data")
      else
        match b64Val c, b64Val d with
        | some vc, some vd =>
          match b64DecodeChars rest with
          | .ok tl => .ok ((va * 4 + vb / 16) :: ((vb % 16) * 16 + vc / 4) :: ((vc % 4) * 64 + vd) :: tl)
          | .error e => .error e
        | _, _ => .error (.errorsNew "illegal base64 data")
    | _, _ => .error (.errorsNew "illegal base64 data")
  | _ => .error (.errorsNew "illegal base64 data")

/-- Model of Go `base64.StdEncoding.DecodeString`: newline characters are
ignored, every other character must belong to the standard alphabet, the
remaining length must be a multiple of four (enforced by the quantum
grouping), and `=` padding is accepted only at the end. -/
def goBase64Decode (s : String) : Except GoError (List Nat) :=
  b64DecodeChars (s.data.filter (fun c => c ≠ '\n' ∧ c ≠ '\r'))

/-- Split a character list at newline characters (the newlines are
consumed). -/
def splitLinesAux : List Char → List Char → List (List Char)
  | [], acc => [acc.reverse]
  | '\n' :: rest, acc => acc.reverse :: splitLinesAux rest []
  | ch :: rest, acc => splitLinesAux rest (ch :: acc)

/-- All lines of a character list. -/
def splitLines (cs : List Char) : List (List Char) :=
  splitLinesAux cs []

/-- The fields of an `encoding/pem` `Block` the engine observes.  (Go's
`Block` also carries headers; the engine only ever reads `Bytes`.) -/
structure PemBlock where
  type : List Char
  bytes : List Nat
deriving DecidableEq, Repr

def pemBeginMarker : List Char := "-----BEGIN ".data

def pemEndMarker : List Char := "-----END ".data

def pemDashes : List Char := "-----".data

/-- Model of Go `pem.Decode` restricted to inputs whose first line is a
well-formed `-----BEGIN type-----` line of a header-less block — the shape
of every input in this development.  On such inputs it is faithful to
`encoding/pem`: the body lines up to the matching `-----END type-----`
line are base64-decoded into `Bytes` (an empty body decodes to empty
`Bytes`).  Both call sites in `server.go` discard `pem.Decode`'s second
return value, so the model omits it. -/
def goPemDecode (bs : List Nat) : Option PemBlock :=
  match splitLines (bs.map Char.ofNat) with
  | [] => none
  | first :: rest =>
    if pemBeginMarker.isPrefixOf first && pemDashes.isSuffixOf first then
      let afterBegin := first.drop pemBeginMarker.length
      let t := afterBegin.take (afterBegin.length - pemDashes.length)
      let endLine := pemEndMarker ++ t ++ pemDashes
      if rest.contains endLine then
        match b64DecodeChars (((rest.takeWhile (fun l => l != endLine)).flatten).filter (fun c => c ≠ '\r')) with
        | .ok bytes => some { type := t, bytes := bytes }
        | .error _ => none
      else none
    else none

/-- One step of Go `x509.ParseCertificates`, parameterized over the DER
parser for a single certificate, which returns the certificate together
with the length of its DER encoding (`len(cert.Raw)`, positive for any
certificate).  The fuel argument makes the Go loop, which strictly
consumes its input, structurally terminating. -/
def parseCertsLoop (pc : List Nat → Except GoError (Cert × Nat)) :
    Nat → List Nat → Except GoError (List Cert)
  | _, [] => .ok []
  | 0, _ :: _ => .ok []
  | fuel + 1, d :: ds =>
    match pc (d :: ds) with
    | .error e => .error e
    | .ok (cert, consumed) =>
      match parseCertsLoop pc fuel ((d :: ds).drop consumed) with
      | .error e => .error e
      | .ok certs => .ok (cert :: certs)

/-- Model of Go `x509.ParseCertificates`: parse certificates from the
front of `der` until it is exhausted.  On empty input it returns an empty
list and a nil error, exactly as the Go loop does. -/
def parseCertificatesGo (pc : List Nat → Except GoError (Cert × Nat))
    (der : List Nat) : Except GoError (List Cert) :=
  parseCertsLoop pc der.length der

/-- Status values of `protos.ConnectivityEvent`. -/
inductive ConnectivityEventStatus where
  | CONNECTED
  | DISCONNECTED
deriving DecidableEq, Repr

/-- Model of `protos.VehicleConnectivity` as constructed by
`dispatchConnectivityEvent`: vin, connection id, network interface,
creation time (unix seconds) and status. -/
structure VehicleConnectivity where
  vin : String
  connectionId : String
  networkInterface : String
  createdAt : Nat
  status : ConnectivityEventStatus
deriving DecidableEq, Repr

/-- The external collaborators of `server.go`, held abstract: the Go
standard-library decoders (`base64.StdEncoding.DecodeString`,
`url.QueryUnescape` composed with the `[]byte` conversion, `pem.Decode`,
the single-certificate DER parser underlying `x509.ParseCertificates`),
the issuer-common-name → client-type mapping the spec calls externally
defined (inside `messages.CreateIdentityFromCert`), protobuf
serialization of `VehicleConnectivity`, and the clock read by
`timestamppb.Now`. -/
structure Env where
  b64Decode : String → Except GoError (List Nat)
  urlUnescape : String → Except GoError (List Nat)
  pemDecode : List Nat → Option PemBlock
  parseCert : List Nat → Except GoError (Cert × Nat)
  clientTypeOfIssuer : String → Except GoError String
  protoMarshalConn : VehicleConnectivity → Except GoError (List Nat)
  nowUnix : Nat

/-- Model of the `config.TLSPassThrough` values recognized by
`headerExtractConfigMap`. -/
inductive TLSPassThroughMode where
  | RFC9440
  | AWSApplicationLoadBalancer
deriving DecidableEq, Repr

/-- The configuration fields `server.go` reads. -/
structure Config where
  tlsPassThrough : Option TLSPassThroughMode
  records : List (String × List String)
  reliableAckSources : List (String × String)
  transmitDecodedRecords : Bool

/-- The parts of an inbound `http.Request` the handler observes: the TLS
peer certificate chain, the two pass-through headers, and whether the
WebSocket upgrade fails (an environmental condition of the request). -/
structure Request where
  tlsPeerCertificates : List Cert
  clientCertChainHeader : Option String
  awsMtlsClientCertHeader : Option String
  upgradeFails : Bool

/-- Translation of `extractCertRFC2440` from `server.go`: read the `Client-Cert-Chain`
header; empty means `missing_certificate_error`; base64-decode (failure is
wrapped as `failed to parse certificates`); `pem.Decode` (a nil block
wraps the — at that point nil — base64 error); `x509.ParseCertificates`;
return `certs[0]`, which panics when the parse yields no certificates. -/
def extractCertRFC2440 (env : Env) (h : Option String) :
    GoOutcome (Option Cert × Option GoError) :=
  let raw := headerGet h
  if raw = "" then .ok (none, some (.errorsNew "missing_certificate_error"))
  else
    match env.b64Decode raw with
    | .error e => .ok (none, some (.fmtErrorf "failed to parse certificates" (some e)))
    | .ok rest =>
      match env.pemDecode rest with
      | none => .ok (none, some (.fmtErrorf "failed to parse certificates" none))
      | some block =>
        match parseCertificatesGo env.parseCert block.bytes with
        | .error e => .ok (none, some (.fmtErrorf "failed to parse certificates" (some e)))
        | .ok [] => .panic_ "runtime error: index out of range [0] with length 0"
        | .ok (c :: _) => .ok (some c, none)

/-- Translation of `extractCertAWSALB` from `server.go`: identical to the RFC 9440 path
except the header is `X-Amzn-Mtls-Clientcert` and the value is
URL-unescaped instead of base64-decoded. -/
def extractCertAWSALB (env : Env) (h : Option String) :
    GoOutcome (Option Cert × Option GoError) :=
  let raw := headerGet h
  if raw = "" then .ok (none, some (.errorsNew "missing_certificate_error"))
  else
    match env.urlUnescape raw with
    | .error e => .ok (none, some (.fmtErrorf "failed to parse certificates" (some e)))
    | .ok rest =>
      match env.pemDecode rest with
      | none => .ok (none, some (.fmtErrorf "failed to parse certificates" none))
      | some block =>
        match parseCertificatesGo env.parseCert block.bytes with
        | .error e => .ok (none, some (.fmtErrorf "failed to parse certificates" (some e)))
        | .ok [] => .panic_ "runtime error: index out of range [0] with length 0"
        | .ok (c :: _) => .ok (some c, none)

/-- Translation of `extractCertFromTLS` from `server.go`: in direct TLS mode, an empty
peer chain is `missing_certificate_error` (via `fmt.Errorf` with no wrap
verb); otherwise the certificate at index `len(chain)-1` is returned. -/
def extractCertFromTLS (peerCertificates : List Cert) :
    GoOutcome (Option Cert × Option GoError) :=
  let nbCerts := peerCertificates.length
  if nbCerts = 0 then .ok (none, some (.fmtErrorf "missing_certificate_error" none))
  else .ok (peerCertificates.get? (nbCerts - 1), none)

/-- The mode dispatch of `extractIdentity` via `headerExtractConfigMap`:
RFC 9440 and AWS ALB pass-through read their respective headers, no
pass-through reads the TLS peer chain. -/
def extractCert (env : Env) (cfg : Config) (r : Request) :
    GoOutcome (Option Cert × Option GoError) :=
  match cfg.tlsPassThrough with
  | some .RFC9440 => extractCertRFC2440 env r.clientCertChainHeader
  | some .AWSApplicationLoadBalancer => extractCertAWSALB env r.awsMtlsClientCertHeader
  | none => extractCertFromTLS r.tlsPeerCertificates

/-- Modelled from the spec: `messages.CreateIdentityFromCert` is not under
`src/`.  Per the spec, the client type is derived from the certificate
issuer common name (through the externally defined mapping, here
`clientTypeOfIssuer`) and the device id is the subject common name. -/
def createIdentityFromCert (clientTypeOfIssuer : String → Except GoError String)
    (cert : Cert) : Except GoError (String × String) :=
  match clientTypeOfIssuer cert.issuerCN with
  | .error e => .error e
  | .ok clientType => .ok (clientType, cert.subjectCN)

/-- Translation of `extractIdentity` from `server.go`: extract a certificate according to
the configured mode, fail on a non-nil extraction error, then build the
`RequestIdentity` with `SenderID = clientType + "." + deviceID`.  (The
branch taken on a nil certificate with a nil error would dereference the
nil certificate; it is proved unreachable below.) -/
def extractIdentity (env : Env) (cfg : Config) (r : Request) :
    GoOutcome (Option RequestIdentity × Option GoError) :=
  match extractCert env cfg r with
  | .panic_ m => .panic_ m
  | .ok (certOpt, errOpt) =>
    match errOpt with
    | some e => .ok (none, some e)
    | none =>
      match certOpt with
      | none => .panic_ "runtime error: invalid memory address or nil pointer dereference"
      | some cert =>
        match createIdentityFromCert env.clientTypeOfIssuer cert with
        | .error e =>
          .ok (none, some (.fmtErrorf
            ("create_identity issuer: " ++ cert.issuerCN ++ ", common_name: " ++ cert.subjectCN) (some e)))
        | .ok (clientType, deviceID) =>
          .ok (some { deviceID := deviceID, senderID := clientType ++ "." ++ deviceID }, none)

/-- The `SocketManager` fields `server.go` reads: the freshly generated
UUID, the identity pointer (`none` models the nil pointer the handler
stores when identity extraction failed), the network-interface label, and
the transmit-decoded-records flag. -/
structure SocketManager where
  uuid : String
  requestIdentity : Option RequestIdentity
  networkInterface : String
  transmitDecodedRecords : Bool
deriving DecidableEq, Repr

/-- Modelled from the spec: the `SocketRegistry` implementation is not
under `src/`.  Per the spec it is a concurrency-safe associative mapping
`connection_id → Socket Manager` holding each UUID at most once; it is
modelled as an association list keyed by UUID. -/
abbrev SocketRegistry := List (String × SocketManager)

/-- Modelled from the spec: `registry.RegisterSocket` inserts the socket
manager under its UUID (replacing any stale entry, keeping each UUID at
most once). -/
def RegisterSocket (reg : SocketRegistry) (sm : SocketManager) : SocketRegistry :=
  (sm.uuid, sm) :: reg.filter (fun p => p.1 ≠ sm.uuid)

/-- Modelled from the spec: `registry.DeregisterSocket` removes the
socket manager's UUID; a later lookup returns absent. -/
def DeregisterSocket (reg : SocketRegistry) (sm : SocketManager) : SocketRegistry :=
  reg.filter (fun p => p.1 ≠ sm.uuid)

/-- Modelled from the spec: `registry.GetSocket` looks a UUID up,
returning the live socket manager or absent. -/
def GetSocket (reg : SocketRegistry) (uuid : String) : Option SocketManager :=
  lookupAssoc reg uuid

/-- Model of `messages.StreamMessage` as constructed by
`dispatchConnectivityEvent` (identifiers are Go byte strings). -/
structure StreamMessage where
  txid : List Nat
  senderID : List Nat
  deviceID : List Nat
  deviceType : List Nat
  messageTopic : List Nat
  payload : List Nat
  createdAt : Nat
deriving DecidableEq, Repr

/-- Modelled from the spec: `telemetry.Record` is not under `src/`.  The
spec's round-trip law ("serialize-then-deserialize the synthetic
connectivity `StreamMessage` → the recovered envelope fields equal the
originals bit-for-bit") lets the model carry the envelope structurally
instead of as serialized bytes. -/
structure Record where
  msg : StreamMessage
  connectionID : String
  transmitDecoded : Bool
deriving DecidableEq, Repr

/-- Modelled from the spec: `messages.StreamMessage.ToBytes` followed by
`telemetry.NewRecord` is not under `src/`.  Per the spec the serializer
turns the envelope into a Record tagged with the connection id and the
flag; the spec states no failure condition, and by its round-trip law the
Record's envelope equals the one serialized.  The Go signatures are
fallible, so the model keeps the `Except` shape. -/
def newRecordFromStream (msg : StreamMessage) (uuid : String)
    (transmitDecoded : Bool) : Except GoError Record :=
  .ok { msg := msg, connectionID := uuid, transmitDecoded := transmitDecoded }

/-- Observable actions of the handler, in program order: the WebSocket
upgrade, the identity-extraction error log, registry operations,
handing a connectivity Record to the dispatch fan-out loop
(`dispatchRecord`), one `Produce` call per configured producer
(`produce`), and one dispatch of a decoded telemetry Record by the read
loop (`dispatchTelemetry`). -/
inductive Event where
  | upgraded
  | upgradeError
  | identityError (e : GoError)
  | registryRegister (uuid : String)
  | registryDeregister (uuid : String)
  | dispatchRecord (status : ConnectivityEventStatus) (rec : Record)
  | produce (producer : String) (rec : Record)
  | dispatchTelemetry (rec : Record)
deriving DecidableEq, Repr

/-- Constant `connectitivityTopic` from `server.go` (sic). -/
def connectitivityTopic : String := "connectivity"

/-- The `VehicleConnectivity` message `dispatchConnectivityEvent` builds
for a socket manager whose identity is `id`: vin from the device id,
connection id from the socket UUID, the socket's network interface, the
current time, and the given status. -/
def connMessage (env : Env) (sm : SocketManager) (id : RequestIdentity)
    (ev : ConnectivityEventStatus) : VehicleConnectivity :=
  { vin := id.deviceID
    connectionId := sm.uuid
    networkInterface := sm.networkInterface
    createdAt := env.nowUnix
    status := ev }

/-- The `StreamMessage` that `dispatchConnectivityEvent` builds: txid from
the socket UUID, sender and device ids from the identity, device type
`vehicle_device`, topic `connectivity`, the marshalled payload, and the
creation time. -/
def connStreamMessage (env : Env) (sm : SocketManager) (id : RequestIdentity)
    (payload : List Nat) : StreamMessage :=
  { txid := strBytes sm.uuid
    senderID := strBytes id.senderID
    deviceID := strBytes id.deviceID
    deviceType := strBytes "vehicle_device"
    messageTopic := strBytes connectitivityTopic
    payload := payload
    createdAt := env.nowUnix }

/-- The Record that `dispatchConnectivityEvent` hands to the producers. -/
def connRecord (env : Env) (sm : SocketManager) (id : RequestIdentity)
    (payload : List Nat) : Record :=
  { msg := connStreamMessage env sm id payload
    connectionID := sm.uuid
    transmitDecoded := sm.transmitDecodedRecords }

/-- Translation of `dispatchConnectivityEvent` from `server.go`: if the dispatch rules
hold no entry for the `connectivity` topic, return nil having produced
nothing.  Otherwise build the `VehicleConnectivity` payload (this
dereferences `sm.requestIdentity`, panicking when it is nil), marshal it,
wrap it in a `StreamMessage` with topic `connectivity` and device type
`vehicle_device`, obtain a Record, and `Produce` it to every configured
producer.  Errors are returned (the callers only log them). -/
def dispatchConnectivityEvent (env : Env) (rules : List (String × List String))
    (sm : SocketManager) (event : ConnectivityEventStatus) :
    GoOutcome (List Event × Option GoError) :=
  match lookupAssoc rules connectitivityTopic with
  | none => .ok ([], none)
  | some connectivityDispatcher =>
    match sm.requestIdentity with
    | none => .panic_ "runtime error: invalid memory address or nil pointer dereference"
    | some id =>
      let connectivityMessage := connMessage env sm id event
      match env.protoMarshalConn connectivityMessage with
      | .error e => .ok ([], some e)
      | .ok payload =>
        let streamMessage := connStreamMessage env sm id payload
        match newRecordFromStream streamMessage sm.uuid sm.transmitDecodedRecords with
        | .error e => .ok ([], some e)
        | .ok record =>
          .ok (.dispatchRecord event record
                :: connectivityDispatcher.map (fun d => .produce d record), none)

/-- Translation of `registerSocket` from `server.go`: register in the registry first,
then dispatch the `CONNECTED` connectivity event; a dispatch error is only
logged.  A panic inside the dispatch unwinds after the registry insert. -/
def registerSocket (env : Env) (rules : List (String × List String))
    (reg : SocketRegistry) (sm : SocketManager) :
    SocketRegistry × List Event × Option String :=
  let reg2 := RegisterSocket reg sm
  match dispatchConnectivityEvent env rules sm .CONNECTED with
  | .panic_ m => (reg2, [.registryRegister sm.uuid], some m)
  | .ok (evs, _errLogged) => (reg2, .registryRegister sm.uuid :: evs, none)

/-- Translation of `deregisterSocket` from `server.go`: deregister from the registry
first, then dispatch the `DISCONNECTED` connectivity event; a dispatch
error is only logged. -/
def deregisterSocket (env : Env) (rules : List (String × List String))
    (reg : SocketRegistry) (sm : SocketManager) :
    SocketRegistry × List Event × Option String :=
  let reg2 := DeregisterSocket reg sm
  match dispatchConnectivityEvent env rules sm .DISCONNECTED with
  | .panic_ m => (reg2, [.registryDeregister sm.uuid], some m)
  | .ok (evs, _errLogged) => (reg2, .registryDeregister sm.uuid :: evs, none)

/-- Modelled from the spec: `SocketManager.ProcessTelemetry` is not under
`src/`.  Per the spec the read loop runs until close or cancellation,
decoding frames and handing each resulting Record to the dispatch engine;
decode failures skip the frame without ending the loop.  Its observable
behaviour is modelled by its inputs: the Records it dispatches before the
loop exits and whether it exits normally or by panic. -/
def processTelemetry (dispatched : List Record) (panicMsg : Option String) :
    List Event × Option String :=
  (dispatched.map .dispatchTelemetry, panicMsg)

/-- A panic raised while unwinding a panicking call supersedes the
original one; otherwise the original panic continues after the deferred
call returns. -/
def mergePanic (original deferred : Option String) : Option String :=
  match deferred with
  | some m => some m
  | none => original

/-- Translation of `ServeBinaryWs` from `server.go` (one handler invocation): attempt the
WebSocket upgrade first; on upgrade failure log/report and return.  After
a successful upgrade, extract the identity — an extraction error is only
logged — build the serializer and socket manager, register (emitting
`CONNECTED`), install the deferred deregistration, run the read loop, and
deregister (emitting `DISCONNECTED`) on every read-loop exit including a
panic.  A panic inside `registerSocket` unwinds before the `defer` is
installed, so no deregistration happens on that path.  Returns the event
trace, the final registry, and the panic escaping the handler if any. -/
def serveBinaryWs (env : Env) (cfg : Config) (r : Request)
    (uuid netIf : String) (telemetryDispatched : List Record)
    (readLoopPanic : Option String) (reg : SocketRegistry) :
    List Event × SocketRegistry × Option String :=
  if r.upgradeFails then ([.upgradeError], reg, none)
  else
    match extractIdentity env cfg r with
    | .panic_ m => ([.upgraded], reg, some m)
    | .ok (idOpt, errOpt) =>
      let idEvents : List Event :=
        match errOpt with
        | some e => [.identityError e]
        | none => []
      let sm : SocketManager :=
        { uuid := uuid
          requestIdentity := idOpt
          networkInterface := netIf
          transmitDecodedRecords := cfg.transmitDecodedRecords }
      match registerSocket env cfg.records reg sm with
      | (reg2, regEvents, some m) => (.upgraded :: idEvents ++ regEvents, reg2, some m)
      | (reg2, regEvents, none) =>
        let pt := processTelemetry telemetryDispatched readLoopPanic
        let dereg := deregisterSocket env cfg.records reg2 sm
        (.upgraded :: idEvents ++ regEvents ++ pt.1 ++ dereg.2.1,
         dereg.1, mergePanic pt.2 dereg.2.2)

/-- The fields of a `telemetry.Record` arriving on the ack channel that
`handleAcks` reads: `TxType`, `SocketID`, and whether `Serializer` is
non-nil. -/
structure AckRecord where
  txType : String
  socketID : String
  hasSerializer : Bool
deriving DecidableEq, Repr

/-- Observable actions of the ack router: the two counter increments with
their `record_type` and `dispatcher` labels, and the
`respondToVehicle` write to the socket found in the registry. -/
inductive AckEffect where
  | incReliableAck (recordType dispatcher : String)
  | incReliableAckMiss (recordType dispatcher : String)
  | respondToVehicle (uuid : String)
deriving DecidableEq, Repr

/-- One iteration of `handleAcks` from `server.go`: read the reliable-ack
source for the record's `TxType` (a missing map entry reads as the empty
string); if the record carries a serializer, look its socket id up in the
registry and either increment `reliable_ack` and respond to the vehicle,
or increment `reliable_ack_miss`; a record without a serializer is
dropped. -/
def handleAckRecord (sources : List (String × String)) (reg : SocketRegistry)
    (record : AckRecord) : List AckEffect :=
  let reliableAckSource := (lookupAssoc sources record.txType).getD ""
  if record.hasSerializer then
    match GetSocket reg record.socketID with
    | some socket =>
      [.incReliableAck record.txType reliableAckSource, .respondToVehicle socket.uuid]
    | none => [.incReliableAckMiss record.txType reliableAckSource]
  else []

/-- Translation of `handleAcks` from `server.go`: drain the ack channel, handling each
record in turn. -/
def handleAcks (sources : List (String × String)) (reg : SocketRegistry)
    (records : List AckRecord) : List AckEffect :=
  (records.map (handleAckRecord sources reg)).flatten

/-- An environment whose protobuf marshaller is total. -/
def EnvMarshalOk (env : Env) : Prop :=
  ∀ vc : VehicleConnectivity, ∃ bs : List Nat, env.protoMarshalConn vc = .ok bs

/-- No connectivity Record is handed to the dispatch fan-out anywhere in
the list. -/
def noConnDispatch (l : List Event) : Prop :=
  ∀ e ∈ l, ∀ s rec, e ≠ Event.dispatchRecord s rec

/-- No telemetry Record is dispatched anywhere in the list. -/
def noTelemetryDispatch (l : List Event) : Prop :=
  ∀ e ∈ l, ∀ rec, e ≠ Event.dispatchTelemetry rec

/-- Model of Go `url.QueryUnescape` composed with the `[]byte` conversion,
restricted to inputs containing no percent escape and no plus sign (the
only inputs used in this development, on which `QueryUnescape` is the
identity): the bytes of the string itself. -/
def goQueryUnescape (s : String) : Except GoError (List Nat) :=
  .ok (strBytes s)

/-- An injective executable stand-in for protobuf marshalling of
`VehicleConnectivity`, used to instantiate witnesses. -/
def vcEncode (vc : VehicleConnectivity) : List Nat :=
  (vc.createdAt :: (match vc.status with | .CONNECTED => 1 | .DISCONNECTED => 0) :: strBytes vc.vin)
    ++ 0 :: strBytes vc.connectionId ++ 0 :: strBytes vc.networkInterface

/-- A single-certificate DER parser stand-in that accepts any nonempty
input as one demo certificate consuming all of it; used to instantiate
witnesses of theorems that are parametric in the parser. -/
def demoParseCert (der : List Nat) : Except GoError (Cert × Nat) :=
  .ok ({ issuerCN := "vehicle_device", subjectCN := "VIN123" }, der.length)

/-- Witness environment: the faithful stdlib models together with demo
instances of the external certificate parser, issuer mapping, marshaller
and clock. -/
def demoEnv : Env :=
  { b64Decode := goBase64Decode
    urlUnescape := goQueryUnescape
    pemDecode := goPemDecode
    parseCert := demoParseCert
    clientTypeOfIssuer := fun issuer => .ok issuer
    protoMarshalConn := fun vc => .ok (vcEncode vc)
    nowUnix := 1700000000 }

/-- Environment for the RFC 9440 totality counterexample: the faithful
stdlib models and a DER parser that rejects everything — it is never
consulted, because the decoded PEM block is empty. -/
def emptyBlockEnv : Env :=
  { b64Decode := goBase64Decode
    urlUnescape := goQueryUnescape
    pemDecode := goPemDecode
    parseCert := fun _ => .error (.errorsNew "x509: malformed certificate")
    clientTypeOfIssuer := fun issuer => .ok issuer
    protoMarshalConn := fun vc => .ok (vcEncode vc)
    nowUnix := 0 }

/-- The value `base64("-----BEGIN CERTIFICATE-----\n-----END CERTIFICATE-----\n")`:
a syntactically valid RFC 9440 header carrying a PEM certificate block
with an empty body. -/
def emptyBlockHeader : String :=
  "LS0tLS1CRUdJTiBDRVJUSUZJQ0FURS0tLS0tCi0tLS0tRU5EIENFUlRJRklDQVRFLS0tLS0K"

/-- A demo certificate: issuer and subject common names as in the
repository's integration setup. -/
def demoCert : Cert :=
  { issuerCN := "vehicle_device", subjectCN := "VIN123" }

/-- The identity `demoEnv` derives from `demoCert` (identity issuer
mapping). -/
def demoIdentity : RequestIdentity :=
  { deviceID := "VIN123", senderID := "vehicle_device.VIN123" }

/-- Direct-TLS request presenting `demoCert`, upgrade succeeding. -/
def demoReqWithCert : Request :=
  { tlsPeerCertificates := [demoCert]
    clientCertChainHeader := none
    awsMtlsClientCertHeader := none
    upgradeFails := false }

/-- Direct-TLS request with an empty peer chain (identity extraction
fails), upgrade succeeding. -/
def demoReqNoCert : Request :=
  { tlsPeerCertificates := []
    clientCertChainHeader := none
    awsMtlsClientCertHeader := none
    upgradeFails := false }

/-- Direct-TLS configuration whose dispatch rules do not contain the
`connectivity` topic. -/
def cfgNoConnectivity : Config :=
  { tlsPassThrough := none
    records := [("V", ["logger"])]
    reliableAckSources := [("V", "kafka")]
    transmitDecodedRecords := false }

/-- Direct-TLS configuration whose dispatch rules contain the
`connectivity` topic. -/
def cfgWithConnectivity : Config :=
  { tlsPassThrough := none
    records := [("connectivity", ["logger"]), ("V", ["kafka"])]
    reliableAckSources := [("V", "kafka")]
    transmitDecodedRecords := false }

/-- The socket manager the handler builds on the nil-identity path of the
C7 failing input. -/
def nilIdentitySM : SocketManager :=
  { uuid := "uuid-7"
    requestIdentity := none
    networkInterface := "wifi"
    transmitDecodedRecords := false }

/-- The socket manager `ServeBinaryWs` builds after a successful
upgrade. -/
def handlerSocketManager (cfg : Config) (uuid netIf : String)
    (idOpt : Option RequestIdentity) : SocketManager :=
  { uuid := uuid
    requestIdentity := idOpt
    networkInterface := netIf
    transmitDecodedRecords := cfg.transmitDecodedRecords }

/-- Sanity check of the base64 model: decoding `emptyBlockHeader` yields
the bytes of the empty PEM certificate block, as Go's
`base64.StdEncoding.DecodeString` does. -/
theorem goBase64Decode_emptyBlockHeader :
    goBase64Decode "LS0tLS1CRUdJTiBDRVJUSUZJQ0FURS0tLS0tCi0tLS0tRU5EIENFUlRJRklDQVRFLS0tLS0K"
      = .ok (strBytes "-----BEGIN CERTIFICATE-----\n-----END CERTIFICATE-----\n") := by
  decide

/-- Sanity check of the PEM model: the empty certificate block decodes to
a block with empty bytes, as Go's `pem.Decode` does. -/
theorem goPemDecode_emptyBlock :
    goPemDecode (strBytes "-----BEGIN CERTIFICATE-----\n-----END CERTIFICATE-----\n")
      = some { type := "CERTIFICATE".data, bytes := [] } := by
  decide

theorem dispatchConnectivityEvent_eq (env : Env) (rules : List (String × List String))
    (sm : SocketManager) (ev : ConnectivityEventStatus) (id : RequestIdentity)
    (ds : List String) (payload : List Nat)
    (hid : sm.requestIdentity = some id)
    (hds : lookupAssoc rules connectitivityTopic = some ds)
    (hm : env.protoMarshalConn (connMessage env sm id ev) = .ok payload) :
    dispatchConnectivityEvent env rules sm ev =
      .ok (.dispatchRecord ev (connRecord env sm id payload)
            :: ds.map (fun d => .produce d (connRecord env sm id payload)), none) := by
  simp only [dispatchConnectivityEvent, hds, hid, hm, newRecordFromStream, connRecord]

theorem dispatchConnectivityEvent_skip (env : Env) (rules : List (String × List String))
    (sm : SocketManager) (ev : ConnectivityEventStatus)
    (h : lookupAssoc rules connectitivityTopic = none) :
    dispatchConnectivityEvent env rules sm ev = .ok ([], none) := by
  unfold dispatchConnectivityEvent
  rw [h]

theorem serveBinaryWs_trace (env : Env) (cfg : Config) (r : Request)
    (uuid netIf : String) (recs : List Record) (rlp : Option String)
    (reg : SocketRegistry) (id : RequestIdentity) (ds : List String)
    (hup : r.upgradeFails = false)
    (hid : extractIdentity env cfg r = .ok (some id, none))
    (hds : lookupAssoc cfg.records connectitivityTopic = some ds)
    (hm : EnvMarshalOk env) :
    ∃ pc pd : List Nat,
      serveBinaryWs env cfg r uuid netIf recs rlp reg =
        (.upgraded :: .registryRegister uuid
          :: .dispatchRecord .CONNECTED (connRecord env (handlerSocketManager cfg uuid netIf (some id)) id pc)
          :: (ds.map (fun d => .produce d (connRecord env (handlerSocketManager cfg uuid netIf (some id)) id pc))
              ++ recs.map .dispatchTelemetry
              ++ .registryDeregister uuid
              :: .dispatchRecord .DISCONNECTED (connRecord env (handlerSocketManager cfg uuid netIf (some id)) id pd)
              :: ds.map (fun d => .produce d (connRecord env (handlerSocketManager cfg uuid netIf (some id)) id pd))),
         DeregisterSocket (RegisterSocket reg (handlerSocketManager cfg uuid netIf (some id)))
           (handlerSocketManager cfg uuid netIf (some id)),
         rlp) := by
  obtain ⟨pc, hpc⟩ := hm (connMessage env (handlerSocketManager cfg uuid netIf (some id)) id .CONNECTED)
  obtain ⟨pd, hpd⟩ := hm (connMessage env (handlerSocketManager cfg uuid netIf (some id)) id .DISCONNECTED)
  refine ⟨pc, pd, ?_⟩
  have hdc := dispatchConnectivityEvent_eq env cfg.records
    (handlerSocketManager cfg uuid netIf (some id)) .CONNECTED id ds pc rfl hds hpc
  have hdd := dispatchConnectivityEvent_eq env cfg.records
    (handlerSocketManager cfg uuid netIf (some id)) .DISCONNECTED id ds pd rfl hds hpd
  simp only [handlerSocketManager] at hdc hdd
  simp only [serveBinaryWs, hup, Bool.false_eq_true, if_false, hid, registerSocket,
    deregisterSocket, processTelemetry, mergePanic, handlerSocketManager]
  rw [hdc, hdd]
  simp [List.append_assoc]

theorem noConnDispatch_append {l1 l2 : List Event}
    (h1 : noConnDispatch l1) (h2 : noConnDispatch l2) : noConnDispatch (l1 ++ l2) := by
  intro e he s rec
  rcases List.mem_append.mp he with h | h
  · exact h1 e h s rec
  · exact h2 e h s rec

theorem noConnDispatch_produce_map (ds : List String) (r : Record) :
    noConnDispatch (ds.map (fun d => Event.produce d r)) := by
  intro e he s rec
  obtain ⟨d, _, rfl⟩ := List.mem_map.mp he
  intro h
  cases h

theorem noConnDispatch_telemetry_map (recs : List Record) :
    noConnDispatch (recs.map Event.dispatchTelemetry) := by
  intro e he s rec
  obtain ⟨r, _, rfl⟩ := List.mem_map.mp he
  intro h
  cases h

theorem noTelemetryDispatch_produce_map (ds : List String) (r : Record) :
    noTelemetryDispatch (ds.map (fun d => Event.produce d r)) := by
  intro e he rec
  obtain ⟨d, _, rfl⟩ := List.mem_map.mp he
  intro h
  cases h

/-- C4: In direct TLS mode the identity extractor uses the last
certificate of the peer chain; an empty chain fails with
`missing_certificate_error` and yields no certificate. -/
theorem c4_direct_tls_last_certificate (cs : List Cert) :
    (cs = [] → extractCertFromTLS cs
        = .ok (none, some (.fmtErrorf "missing_certificate_error" none)))
    ∧ (cs ≠ [] → ∃ c, cs.getLast? = some c
        ∧ extractCertFromTLS cs = .ok (some c, none)) := by
  constructor
  · rintro rfl
    rfl
  · intro h
    obtain ⟨c, hc⟩ := Option.isSome_iff_exists.mp (List.getLast?_isSome.mpr h)
    refine ⟨c, hc, ?_⟩
    unfold extractCertFromTLS
    rw [if_neg (by simpa using List.length_pos.mpr h |>.ne')]
    rw [List.get?_eq_getElem?, ← List.getLast?_eq_getElem?, hc]

/-- C4 witness: A two-certificate chain yields the second (last)
certificate; the empty chain yields the missing-certificate error. -/
theorem c4_direct_tls_last_certificate_witness :
    (extractCertFromTLS []
        = .ok (none, some (.fmtErrorf "missing_certificate_error" none)))
    ∧ ∃ c, [{ issuerCN := "ca", subjectCN := "mid" }, demoCert].getLast? = some c
        ∧ extractCertFromTLS [{ issuerCN := "ca", subjectCN := "mid" }, demoCert]
            = .ok (some c, none) :=
  ⟨(c4_direct_tls_last_certificate []).1 rfl,
   (c4_direct_tls_last_certificate [{ issuerCN := "ca", subjectCN := "mid" }, demoCert]).2
     (by decide)⟩

/-- C5: RFC 9440 pass-through: an absent `Client-Cert-Chain` header is
a `missing_certificate_error`; a present header whose value fails base64
decoding is a `failed to parse certificates` failure wrapping the decode
error; on success the result is the first certificate parsed from the
(first) PEM block of the decoded value. -/
theorem c5_rfc9440_extraction (env : Env) (raw : String) (rest : List Nat)
    (block : PemBlock) (e : GoError) (certs : List Cert) :
    (extractCertRFC2440 env none
        = .ok (none, some (.errorsNew "missing_certificate_error")))
    ∧ (raw ≠ "" → env.b64Decode raw = .error e →
        extractCertRFC2440 env (some raw)
          = .ok (none, some (.fmtErrorf "failed to parse certificates" (some e))))
    ∧ (raw ≠ "" → env.b64Decode raw = .ok rest → env.pemDecode rest = some block →
        parseCertificatesGo env.parseCert block.bytes = .ok certs → certs ≠ [] →
        ∃ c, certs.head? = some c
          ∧ extractCertRFC2440 env (some raw) = .ok (some c, none)) := by
  refine ⟨rfl, ?_, ?_⟩
  · intro hraw hb64
    unfold extractCertRFC2440
    rw [show headerGet (some raw) = raw from rfl, if_neg hraw, hb64]
  · intro hraw hb64 hpem hparse hne
    unfold extractCertRFC2440
    rw [show headerGet (some raw) = raw from rfl, if_neg hraw]
    simp only [hb64, hpem, hparse]
    cases certs with
    | nil => exact absurd rfl hne
    | cons c cs => exact ⟨c, rfl, rfl⟩

/-- C5 witness: The three branches at concrete inputs: absent header;
the non-base64 header `"%%"`; and the base64 encoding of a PEM block with
body `QUJD`, whose three decoded bytes the demo parser accepts as one
certificate. -/
theorem c5_rfc9440_extraction_witness :
    (extractCertRFC2440 demoEnv none
        = .ok (none, some (.errorsNew "missing_certificate_error")))
    ∧ (extractCertRFC2440 demoEnv (some "%%")
        = .ok (none, some (.fmtErrorf "failed to parse certificates"
            (some (.errorsNew "illegal base64 data")))))
    ∧ ∃ c, [demoCert].head? = some c
        ∧ extractCertRFC2440 demoEnv
            (some "LS0tLS1CRUdJTiBDRVJUSUZJQ0FURS0tLS0tClFVSkQKLS0tLS1FTkQgQ0VSVElGSUNBVEUtLS0tLQo=")
          = .ok (some c, none) :=
  ⟨(c5_rfc9440_extraction demoEnv "" [] { type := [], bytes := [] }
      (.errorsNew "") []).1,
   (c5_rfc9440_extraction demoEnv "%%" [] { type := [], bytes := [] }
      (.errorsNew "illegal base64 data") []).2.1 (by decide) (by decide),
   (c5_rfc9440_extraction demoEnv
      "LS0tLS1CRUdJTiBDRVJUSUZJQ0FURS0tLS0tClFVSkQKLS0tLS1FTkQgQ0VSVElGSUNBVEUtLS0tLQo="
      (strBytes "-----BEGIN CERTIFICATE-----\nQUJD\n-----END CERTIFICATE-----\n")
      { type := "CERTIFICATE".data, bytes := [65, 66, 67] }
      (.errorsNew "") [demoCert]).2.2
     (by decide) (by decide) (by decide) (by decide) (by decide)⟩

/-- C10 (amended): On every returning path, `extractCertRFC2440` and
`extractCertAWSALB` never yield both a nil certificate and a nil error;
in particular the nil-PEM-block branch, which wraps the — at that point
nil — decode error, still returns a non-nil error value.  (Totality,
which the original claim also asserts, fails: see the counterexample.) -/
theorem c10_pass_through_no_nil_nil (env : Env) (h : Option String)
    (c : Option Cert) (e : Option GoError) (rest : List Nat) :
    (extractCertRFC2440 env h = .ok (c, e) → c.isSome ∨ e.isSome)
    ∧ (extractCertAWSALB env h = .ok (c, e) → c.isSome ∨ e.isSome)
    ∧ (headerGet h ≠ "" → env.b64Decode (headerGet h) = .ok rest →
        env.pemDecode rest = none →
        extractCertRFC2440 env h
          = .ok (none, some (.fmtErrorf "failed to parse certificates" none))) := by
  refine ⟨?_, ?_, ?_⟩
  · intro hret
    simp only [extractCertRFC2440] at hret
    split at hret
    all_goals try split at hret
    all_goals try split at hret
    all_goals try split at hret
    all_goals
      first
      | (injection hret with h12; injection h12 with h1 h2; subst h1; subst h2; simp)
      | injection hret
  · intro hret
    simp only [extractCertAWSALB] at hret
    split at hret
    all_goals try split at hret
    all_goals try split at hret
    all_goals try split at hret
    all_goals
      first
      | (injection hret with h12; injection h12 with h1 h2; subst h1; subst h2; simp)
      | injection hret
  · intro hraw hb64 hpem
    unfold extractCertRFC2440
    rw [if_neg hraw]
    simp only [hb64, hpem]

/-- C10 witness: The no-nil-nil branches at concrete inputs: an
absent header (error returned), and the header `QUJD`, which
base64-decodes to `ABC` — no PEM block — exercising the nil-wrap
branch. -/
theorem c10_pass_through_no_nil_nil_witness :
    ((none : Option Cert).isSome
        ∨ (some (GoError.errorsNew "missing_certificate_error")).isSome)
    ∧ ((none : Option Cert).isSome
        ∨ (some (GoError.errorsNew "missing_certificate_error")).isSome)
    ∧ extractCertRFC2440 demoEnv (some "QUJD")
        = .ok (none, some (.fmtErrorf "failed to parse certificates" none)) :=
  ⟨(c10_pass_through_no_nil_nil demoEnv none none
      (some (.errorsNew "missing_certificate_error")) []).1 (by decide),
   (c10_pass_through_no_nil_nil demoEnv none none
      (some (.errorsNew "missing_certificate_error")) []).2.1 (by decide),
   (c10_pass_through_no_nil_nil demoEnv (some "QUJD") none none
      (strBytes "ABC")).2.2 (by decide) (by decide) (by decide)⟩

/-- C10 counterexample: The claimed totality on arbitrary header
content is false: on the base64 encoding of a PEM certificate block with
an empty body, `base64` decoding and `pem.Decode` succeed, the block's
bytes are empty, `x509.ParseCertificates` returns an empty list with a
nil error, and `certs[0]` panics — the function does not return at all. -/
theorem c10_totality_counterexample :
    extractCertRFC2440 emptyBlockEnv (some emptyBlockHeader)
      = .panic_ "runtime error: index out of range [0] with length 0" := by
  decide

/-- C2: The ack router: for a Record carrying a serializer, a live
registry entry for its socket id yields exactly one `reliable_ack`
increment labelled with the record's tx type and its reliable-ack source,
followed by exactly one `respondToVehicle` write to that socket; an
absent entry yields exactly one `reliable_ack_miss` increment with the
same labels and no write.  A tx type absent from `ReliableAckSources`
does not stop processing; its dispatcher label is the empty string. -/
theorem c2_ack_router_routing (sources : List (String × String))
    (reg : SocketRegistry) (record : AckRecord) (sm : SocketManager) :
    (record.hasSerializer = true → GetSocket reg record.socketID = some sm →
        handleAckRecord sources reg record
          = [.incReliableAck record.txType ((lookupAssoc sources record.txType).getD ""),
             .respondToVehicle sm.uuid])
    ∧ (record.hasSerializer = true → GetSocket reg record.socketID = none →
        handleAckRecord sources reg record
          = [.incReliableAckMiss record.txType ((lookupAssoc sources record.txType).getD "")])
    ∧ (lookupAssoc sources record.txType = none → record.hasSerializer = true →
        GetSocket reg record.socketID = some sm →
        handleAckRecord sources reg record
          = [.incReliableAck record.txType "", .respondToVehicle sm.uuid]) := by
  refine ⟨?_, ?_, ?_⟩
  · intro hs hsock
    unfold handleAckRecord
    rw [hs]
    simp only [hsock, if_true]
  · intro hs hsock
    unfold handleAckRecord
    rw [hs]
    simp only [hsock, if_true]
  · intro habs hs hsock
    unfold handleAckRecord
    rw [hs]
    simp only [habs, hsock, if_true, Option.getD_none]

/-- C2 witness: The three routing branches at concrete inputs: a
registered socket, an empty registry, and a tx type with no reliable-ack
source. -/
theorem c2_ack_router_routing_witness :
    (handleAckRecord [("V", "kafka")] [("uuid-2", nilIdentitySM)]
        { txType := "V", socketID := "uuid-2", hasSerializer := true }
      = [.incReliableAck "V" "kafka", .respondToVehicle "uuid-7"])
    ∧ (handleAckRecord [("V", "kafka")] []
        { txType := "V", socketID := "uuid-2", hasSerializer := true }
      = [.incReliableAckMiss "V" "kafka"])
    ∧ (handleAckRecord [("V", "kafka")] [("uuid-2", nilIdentitySM)]
        { txType := "W", socketID := "uuid-2", hasSerializer := true }
      = [.incReliableAck "W" "", .respondToVehicle "uuid-7"]) :=
  ⟨(c2_ack_router_routing [("V", "kafka")] [("uuid-2", nilIdentitySM)]
      { txType := "V", socketID := "uuid-2", hasSerializer := true } nilIdentitySM).1
     (by decide) (by decide),
   (c2_ack_router_routing [("V", "kafka")] []
      { txType := "V", socketID := "uuid-2", hasSerializer := true } nilIdentitySM).2.1
     (by decide) (by decide),
   (c2_ack_router_routing [("V", "kafka")] [("uuid-2", nilIdentitySM)]
      { txType := "W", socketID := "uuid-2", hasSerializer := true } nilIdentitySM).2.2
     (by decide) (by decide) (by decide)⟩

/-- C6: If the dispatch rules hold no entry for the `connectivity`
topic, dispatching a connectivity event returns success without producing
any record to any sink, and register and deregister still perform their
registry operation. -/
theorem c6_connectivity_topic_absent (env : Env) (rules : List (String × List String))
    (sm : SocketManager) (ev : ConnectivityEventStatus) (reg : SocketRegistry)
    (h : lookupAssoc rules connectitivityTopic = none) :
    dispatchConnectivityEvent env rules sm ev = .ok ([], none)
    ∧ registerSocket env rules reg sm
        = (RegisterSocket reg sm, [.registryRegister sm.uuid], none)
    ∧ deregisterSocket env rules reg sm
        = (DeregisterSocket reg sm, [.registryDeregister sm.uuid], none) := by
  have hd := dispatchConnectivityEvent_skip env rules sm ev h
  have hdc := dispatchConnectivityEvent_skip env rules sm .CONNECTED h
  have hdd := dispatchConnectivityEvent_skip env rules sm .DISCONNECTED h
  refine ⟨hd, ?_, ?_⟩
  · unfold registerSocket
    rw [hdc]
  · unfold deregisterSocket
    rw [hdd]

/-- C6 witness: With rules holding only the `V` topic, the
connectivity dispatch is a silent success and the registry operations
still run, even for the nil-identity socket manager. -/
theorem c6_connectivity_topic_absent_witness :
    dispatchConnectivityEvent demoEnv cfgNoConnectivity.records nilIdentitySM .CONNECTED
      = .ok ([], none)
    ∧ registerSocket demoEnv cfgNoConnectivity.records [] nilIdentitySM
        = (RegisterSocket [] nilIdentitySM, [.registryRegister "uuid-7"], none)
    ∧ deregisterSocket demoEnv cfgNoConnectivity.records [] nilIdentitySM
        = (DeregisterSocket [] nilIdentitySM, [.registryDeregister "uuid-7"], none) :=
  c6_connectivity_topic_absent demoEnv cfgNoConnectivity.records nilIdentitySM
    .CONNECTED [] (by decide)

/-- C9: Every connectivity Record handed to the dispatch fan-out wraps
a `StreamMessage` with topic `connectivity` and device type
`vehicle_device`, whose payload is the protobuf serialization of the
`VehicleConnectivity` message built from the connection's device id (vin),
the socket UUID (connection id), its network interface, the creation
time, and a status that is `CONNECTED` or `DISCONNECTED`; sender and
device ids come from the connection's identity. -/
theorem c9_connectivity_envelope (env : Env) (rules : List (String × List String))
    (sm : SocketManager) (ev : ConnectivityEventStatus) (id : RequestIdentity)
    (ds : List String) (payload : List Nat)
    (hid : sm.requestIdentity = some id)
    (hds : lookupAssoc rules connectitivityTopic = some ds)
    (hm : env.protoMarshalConn (connMessage env sm id ev) = .ok payload) :
    ∃ rec : Record,
      dispatchConnectivityEvent env rules sm ev
        = .ok (.dispatchRecord ev rec :: ds.map (fun d => .produce d rec), none)
      ∧ rec.msg.messageTopic = strBytes "connectivity"
      ∧ rec.msg.deviceType = strBytes "vehicle_device"
      ∧ rec.msg.payload = payload
      ∧ connMessage env sm id ev
          = { vin := id.deviceID, connectionId := sm.uuid,
              networkInterface := sm.networkInterface,
              createdAt := env.nowUnix, status := ev }
      ∧ rec.msg.senderID = strBytes id.senderID
      ∧ rec.msg.deviceID = strBytes id.deviceID
      ∧ rec.msg.txid = strBytes sm.uuid
      ∧ rec.msg.createdAt = env.nowUnix
      ∧ rec.connectionID = sm.uuid
      ∧ (ev = .CONNECTED ∨ ev = .DISCONNECTED) := by
  refine ⟨connRecord env sm id payload,
    dispatchConnectivityEvent_eq env rules sm ev id ds payload hid hds hm,
    rfl, rfl, rfl, rfl, rfl, rfl, rfl, rfl, rfl, ?_⟩
  cases ev
  · exact Or.inl rfl
  · exact Or.inr rfl

/-- C9 witness: The envelope at a concrete socket manager with
identity, the demo marshaller, and one configured producer. -/
theorem c9_connectivity_envelope_witness :
    ∃ rec : Record,
      dispatchConnectivityEvent demoEnv cfgWithConnectivity.records
          { uuid := "uuid-9", requestIdentity := some demoIdentity,
            networkInterface := "cellular", transmitDecodedRecords := false }
          .CONNECTED
        = .ok (.dispatchRecord .CONNECTED rec
            :: ["logger"].map (fun d => .produce d rec), none)
      ∧ rec.msg.messageTopic = strBytes "connectivity"
      ∧ rec.msg.deviceType = strBytes "vehicle_device"
      ∧ rec.msg.payload
          = vcEncode (connMessage demoEnv
              { uuid := "uuid-9", requestIdentity := some demoIdentity,
                networkInterface := "cellular", transmitDecodedRecords := false }
              demoIdentity .CONNECTED)
      ∧ connMessage demoEnv
            { uuid := "uuid-9", requestIdentity := some demoIdentity,
              networkInterface := "cellular", transmitDecodedRecords := false }
            demoIdentity .CONNECTED
          = { vin := demoIdentity.deviceID, connectionId := "uuid-9",
              networkInterface := "cellular",
              createdAt := demoEnv.nowUnix, status := .CONNECTED }
      ∧ rec.msg.senderID = strBytes demoIdentity.senderID
      ∧ rec.msg.deviceID = strBytes demoIdentity.deviceID
      ∧ rec.msg.txid = strBytes "uuid-9"
      ∧ rec.msg.createdAt = demoEnv.nowUnix
      ∧ rec.connectionID = "uuid-9"
      ∧ ((ConnectivityEventStatus.CONNECTED = .CONNECTED)
          ∨ (ConnectivityEventStatus.CONNECTED = .DISCONNECTED)) :=
  c9_connectivity_envelope demoEnv cfgWithConnectivity.records
    { uuid := "uuid-9", requestIdentity := some demoIdentity,
      networkInterface := "cellular", transmitDecodedRecords := false }
    .CONNECTED demoIdentity ["logger"]
    (vcEncode (connMessage demoEnv
      { uuid := "uuid-9", requestIdentity := some demoIdentity,
        networkInterface := "cellular", transmitDecodedRecords := false }
      demoIdentity .CONNECTED))
    rfl (by decide) rfl

/-- C8: Whenever identity extraction succeeds, the resulting
`RequestIdentity` satisfies `sender_id = client_type ++ "." ++ device_id`,
where the client type is derived from the chosen certificate's issuer
common name and the device id is the certificate's subject common name. -/
theorem c8_sender_id_composition (env : Env) (cfg : Config) (r : Request)
    (id : RequestIdentity)
    (hid : extractIdentity env cfg r = .ok (some id, none)) :
    ∃ cert clientType,
      extractCert env cfg r = .ok (some cert, none)
      ∧ env.clientTypeOfIssuer cert.issuerCN = .ok clientType
      ∧ id.deviceID = cert.subjectCN
      ∧ id.senderID = clientType ++ "." ++ id.deviceID := by
  unfold extractIdentity at hid
  split at hid
  · exact absurd hid (by simp)
  · split at hid
    · exact absurd hid (by simp)
    · split at hid
      · exact absurd hid (by simp)
      · split at hid
        · exact absurd hid (by simp)
        · rename_i cert hcert x clientType deviceID hci
          have hidval : id = RequestIdentity.mk deviceID (clientType ++ "." ++ deviceID) := by
            injection hid with h12
            injection h12 with h1 h2
            exact (Option.some.inj h1).symm
          subst hidval
          unfold createIdentityFromCert at hci
          cases hcti : env.clientTypeOfIssuer cert.issuerCN with
          | error e => rw [hcti] at hci; exact absurd hci (by simp)
          | ok ct2 =>
            rw [hcti] at hci
            have hp : (ct2, cert.subjectCN) = (clientType, deviceID) :=
              Except.ok.inj hci
            have h1 : ct2 = clientType := congrArg Prod.fst hp
            have h2 : cert.subjectCN = deviceID := congrArg Prod.snd hp
            refine ⟨cert, clientType, hcert, ?_, ?_, rfl⟩
            · rw [← h1]
              exact hcti
            · exact h2.symm

/-- C8 witness: The direct-TLS demo request: the identity derived from
`demoCert` has device id `VIN123` and sender id
`vehicle_device.VIN123`. -/
theorem c8_sender_id_composition_witness :
    ∃ cert clientType,
      extractCert demoEnv cfgWithConnectivity demoReqWithCert = .ok (some cert, none)
      ∧ demoEnv.clientTypeOfIssuer cert.issuerCN = .ok clientType
      ∧ demoIdentity.deviceID = cert.subjectCN
      ∧ demoIdentity.senderID = clientType ++ "." ++ demoIdentity.deviceID :=
  c8_sender_id_composition demoEnv cfgWithConnectivity demoReqWithCert demoIdentity
    (by decide)

/-- C3: For a handler run whose upgrade succeeds, whose identity
extraction succeeds, and whose dispatch rules carry the `connectivity`
topic: the event trace contains exactly one `CONNECTED` connectivity
dispatch and exactly one `DISCONNECTED` connectivity dispatch, in that
order, with every telemetry dispatch strictly between them — `CONNECTED`
before any telemetry Record, `DISCONNECTED` after the read loop exits. -/
theorem c3_connectivity_lifecycle_order (env : Env) (cfg : Config) (r : Request)
    (uuid netIf : String) (recs : List Record) (rlp : Option String)
    (reg : SocketRegistry) (id : RequestIdentity) (ds : List String)
    (hup : r.upgradeFails = false)
    (hid : extractIdentity env cfg r = .ok (some id, none))
    (hds : lookupAssoc cfg.records connectitivityTopic = some ds)
    (hm : EnvMarshalOk env) :
    ∃ pre mid post rc rd,
      (serveBinaryWs env cfg r uuid netIf recs rlp reg).1
        = pre ++ .dispatchRecord .CONNECTED rc
            :: (mid ++ .dispatchRecord .DISCONNECTED rd :: post)
      ∧ noConnDispatch pre ∧ noConnDispatch mid ∧ noConnDispatch post
      ∧ noTelemetryDispatch pre ∧ noTelemetryDispatch post := by
  obtain ⟨pc, pd, htrace⟩ :=
    serveBinaryWs_trace env cfg r uuid netIf recs rlp reg id ds hup hid hds hm
  refine ⟨[.upgraded, .registryRegister uuid],
    ds.map (fun d => .produce d
        (connRecord env (handlerSocketManager cfg uuid netIf (some id)) id pc))
      ++ recs.map .dispatchTelemetry ++ [.registryDeregister uuid],
    ds.map (fun d => .produce d
        (connRecord env (handlerSocketManager cfg uuid netIf (some id)) id pd)),
    connRecord env (handlerSocketManager cfg uuid netIf (some id)) id pc,
    connRecord env (handlerSocketManager cfg uuid netIf (some id)) id pd,
    ?_, ?_, ?_, ?_, ?_, ?_⟩
  · rw [show (serveBinaryWs env cfg r uuid netIf recs rlp reg).1
        = (serveBinaryWs env cfg r uuid netIf recs rlp reg).1 from rfl, htrace]
    simp [List.append_assoc]
  · intro e he s rec
    simp only [List.mem_cons, List.mem_singleton, List.not_mem_nil, or_false] at he
    rcases he with rfl | rfl <;> simp
  · refine noConnDispatch_append (noConnDispatch_append
      (noConnDispatch_produce_map _ _) (noConnDispatch_telemetry_map _)) ?_
    intro e he s rec
    simp only [List.mem_singleton] at he
    subst he
    simp
  · exact noConnDispatch_produce_map _ _
  · intro e he rec
    simp only [List.mem_cons, List.mem_singleton, List.not_mem_nil, or_false] at he
    rcases he with rfl | rfl <;> simp
  · exact noTelemetryDispatch_produce_map _ _

/-- C3 witness: The lifecycle ordering at a concrete successful
connection with the `connectivity` topic configured. -/
theorem c3_connectivity_lifecycle_order_witness :
    ∃ pre mid post rc rd,
      (serveBinaryWs demoEnv cfgWithConnectivity demoReqWithCert "uuid-3" "wifi"
          [] none []).1
        = pre ++ Event.dispatchRecord .CONNECTED rc
            :: (mid ++ Event.dispatchRecord .DISCONNECTED rd :: post)
      ∧ noConnDispatch pre ∧ noConnDispatch mid ∧ noConnDispatch post
      ∧ noTelemetryDispatch pre ∧ noTelemetryDispatch post :=
  c3_connectivity_lifecycle_order demoEnv cfgWithConnectivity demoReqWithCert
    "uuid-3" "wifi" [] none [] demoIdentity ["logger"]
    rfl (by decide) (by decide) (fun vc => ⟨vcEncode vc, rfl⟩)

/-- C1 (the code, evaluated at the failing input): On a request whose
identity extraction fails — direct TLS with an empty peer chain — the
handler upgrades the WebSocket first, logs the extraction error, and
proceeds to register a Socket Manager, run the read loop and deregister,
completing normally: the request is not aborted, no HTTP error is
returned, and a registration does occur. -/
theorem c1_identity_failure_does_not_abort :
    serveBinaryWs demoEnv cfgNoConnectivity demoReqNoCert "uuid-1" "wifi" [] none []
      = ([.upgraded,
          .identityError (.fmtErrorf "missing_certificate_error" none),
          .registryRegister "uuid-1",
          .registryDeregister "uuid-1"],
         [], none) := by
  decide

/-- C7 (the code, evaluated at the failing input): With the
`connectivity` topic configured and identity extraction failing, the
handler registers the socket, then panics dereferencing the nil identity
inside the `CONNECTED` dispatch — before the deferred deregistration is
installed — so the handler returns (by panic) while the Registry still
holds the connection's entry. -/
theorem c7_registry_retains_entry_on_panic :
    serveBinaryWs demoEnv cfgWithConnectivity demoReqNoCert "uuid-7" "wifi" [] none []
      = ([.upgraded,
          .identityError (.fmtErrorf "missing_certificate_error" none),
          .registryRegister "uuid-7"],
         [("uuid-7", nilIdentitySM)],
         some "runtime error: invalid memory address or nil pointer dereference")
    ∧ GetSocket [("uuid-7", nilIdentitySM)] "uuid-7" = some nilIdentitySM := by
  decide
